import Mathlib

/-!
Verification of the interactive-calibration frame processor
(`src/frameProcessor.cpp`) against its natural-language specification.

The C++ code is shallowly embedded: 2-D image points (`cv::Point2f`) and
3-D object points (`cv::Point3f`) are modelled with exact rational
coordinates, the mutable `CalibProcessor` object becomes an explicit
state record, and each external detector call (`findChessboardCorners`,
`findCirclesGrid`, charuco interpolation) becomes an oracle carried by
the `Frame` input: the detector boundary is out of scope of the spec and
is specified only by its interface (an ordered point list or "not
found").

Note that `sqrt(IMAGE_HEIGHT*IMAGE_HEIGHT + IMAGE_WIDTH*IMAGE_WIDTH)/20.0`
with `IMAGE_WIDTH = 1280`, `IMAGE_HEIGHT = 960` is exactly `80`
(`sqrt 2560000 = 1600`), so the strict comparison
`cv::norm(a - b) < maxTemplateOffset` is modelled exactly as
`normSq a b < 6400` on rationals.
-/

namespace Calib

/-- A 2-D image point (`cv::Point2f`), with exact rational coordinates. -/
abbrev Point := ℚ × ℚ

/-- A 3-D object point (`cv::Point3f`). -/
abbrev Point3 := ℚ × ℚ × ℚ

/-- Squared Euclidean distance between two 2-D points. -/
def normSq (p q : Point) : ℚ :=
  (p.1 - q.1) * (p.1 - q.1) + (p.2 - q.2) * (p.2 - q.2)

/-- The four pattern families (`TemplateType`). -/
inductive TemplateType where
  | Chessboard
  | chAruco
  | AcirclesGrid
  | DoubleAcirclesGrid
  deriving DecidableEq, Repr

/-- The shared calibration dataset (`calibrationData`): samples appended by
the capture processor, plus the solver-written fields read by the preview
processor. -/
structure CalibrationData where
  imagePoints : List (List Point)
  objectPoints : List (List Point3)
  allCharucoCorners : List (List Point)
  allCharucoIds : List (List Int)
  cameraMatrix : List (List ℚ)
  distCoeffs : List ℚ
  totalAvgErr : ℚ
  deriving DecidableEq, Repr

/-- The dataset at session start: no samples, no solver output. -/
def emptyData : CalibrationData :=
  { imagePoints := [], objectPoints := [], allCharucoCorners := [],
    allCharucoIds := [], cameraMatrix := [], distCoeffs := [], totalAvgErr := 0 }

/-- The state of a `CalibProcessor`: board configuration fixed at
construction, plus the mutable member fields of the C++ class. -/
structure CalibState where
  boardType : TemplateType
  boardW : Nat
  boardH : Nat
  mCapuredFrames : Nat
  mNeededFramesNum : Nat
  mTemplateLocations : List Point
  mCurrentImagePoints : List Point
  mCurrentCharucoCorners : List Point
  mCurrentCharucoIds : List Int
  mCalibdata : CalibrationData
  deriving DecidableEq, Repr

/-- One input frame, represented by what each external detector would
return on it (the detector boundary: an ordered 2-D point list or "not
found"; for charuco, the interpolated corners with their ids, empty when
interpolation produced nothing). -/
structure Frame where
  chessboard : Option (List Point)
  acircles : Option (List Point)
  dualWhite : Option (List Point)
  dualBlack : Option (List Point)
  charucoCorners : List Point
  charucoIds : List Int
  deriving DecidableEq, Repr

/-- `CalibProcessor::detectAndParseChessboard`: on success the (refined)
corners become the current image points and the first corner is inserted
at the front of the anchor history. -/
def detectAndParseChessboard (f : Frame) (s : CalibState) : Bool × CalibState :=
  match f.chessboard with
  | none => (false, s)
  | some pts =>
      (true, { s with mCurrentImagePoints := pts,
                      mTemplateLocations := pts.headI :: s.mTemplateLocations })

/-- Centroid of a point list (arithmetic mean of x and y independently),
as computed for the charuco anchor. -/
def centroid (l : List Point) : Point :=
  ((l.map Prod.fst).sum / (l.length : ℚ), (l.map Prod.snd).sum / (l.length : ℚ))

/-- `CalibProcessor::detectAndParseChAruco`: succeeds when interpolation
produced at least one corner (`currentCharucoCorners.total() > 0`); the
centroid of the interpolated corners is the anchor. -/
def detectAndParseChAruco (f : Frame) (s : CalibState) : Bool × CalibState :=
  match f.charucoCorners with
  | [] => (false, s)
  | cs =>
      (true, { s with mTemplateLocations := centroid cs :: s.mTemplateLocations,
                      mCurrentCharucoCorners := cs,
                      mCurrentCharucoIds := f.charucoIds })

/-- `CalibProcessor::detectAndParseACircles`. -/
def detectAndParseACircles (f : Frame) (s : CalibState) : Bool × CalibState :=
  match f.acircles with
  | none => (false, s)
  | some pts =>
      (true, { s with mCurrentImagePoints := pts,
                      mTemplateLocations := pts.headI :: s.mTemplateLocations })

/-- `CalibProcessor::detectAndParseDualACircles`: the white sub-grid is
sought on the frame as-is, the black one on the photometric inverse; a
missing white grid is an early failure, a missing black grid clears the
already-stored white points; on success the black points are appended
after the white ones and the first point of the concatenation is the
anchor. -/
def detectAndParseDualACircles (f : Frame) (s : CalibState) : Bool × CalibState :=
  match f.dualWhite with
  | none => (false, s)
  | some whitePts =>
      let s1 := { s with mCurrentImagePoints := whitePts }
      match f.dualBlack with
      | none => (false, { s1 with mCurrentImagePoints := [] })
      | some blackPts =>
          let pts := whitePts ++ blackPts
          (true, { s1 with mCurrentImagePoints := pts,
                           mTemplateLocations := pts.headI :: s1.mTemplateLocations })

/-- `squareSize = 16.3f` as an exact rational. -/
def squareSize : ℚ := 163 / 10

/-- `acircleGrid2Distance = 295.f`. -/
def acircleGrid2Distance : ℚ := 295

/-- Object points for `TemplateType::Chessboard`: `i` over rows (height)
outer, `j` over columns (width) inner, point `(j*squareSize, i*squareSize, 0)`. -/
def chessboardObjectPoints (w h : Nat) : List Point3 :=
  (List.range h).flatMap fun (i : Nat) => (List.range w).map fun (j : Nat) =>
    ((j : ℚ) * squareSize, (i : ℚ) * squareSize, 0)

/-- Object points for `TemplateType::AcirclesGrid`:
`((2*j + i % 2)*squareSize, i*squareSize, 0)`. -/
def acirclesObjectPoints (w h : Nat) : List Point3 :=
  (List.range h).flatMap fun (i : Nat) => (List.range w).map fun (j : Nat) =>
    (((2 * j + i % 2 : Nat) : ℚ) * squareSize, (i : ℚ) * squareSize, 0)

/-- Object points for `TemplateType::DoubleAcirclesGrid`: the white block
followed by the black block, each row-major, recentered about
`(gridCenterX, gridCenterY)`.  The C++ computes `width - 1` and
`height - 1` in signed arithmetic before converting to float, hence the
casts to `ℚ` before subtracting. -/
def doubleAcirclesObjectPoints (w h : Nat) : List Point3 :=
  let gridCenterX : ℚ := (2 * ((w : ℚ) - 1) + 1) * squareSize + acircleGrid2Distance / 2
  let gridCenterY : ℚ := ((h : ℚ) - 1) * squareSize / 2
  ((List.range h).flatMap fun (i : Nat) => (List.range w).map fun (j : Nat) =>
    (-(((2 * j + i % 2 : Nat) : ℚ) * squareSize + acircleGrid2Distance
        + (2 * ((w : ℚ) - 1) + 1) * squareSize - gridCenterX),
     -((i : ℚ) * squareSize) - gridCenterY, 0)) ++
  ((List.range h).flatMap fun (i : Nat) => (List.range w).map fun (j : Nat) =>
    (-(((2 * j + i % 2 : Nat) : ℚ) * squareSize - gridCenterX),
     -((i : ℚ) * squareSize) - gridCenterY, 0))

/-- `CalibProcessor::saveFrameData`: append one sample to the dataset,
geometric families push an (image points, object points) pair, the
charuco family pushes a (corners, ids) pair. -/
def saveFrameData (s : CalibState) : CalibState :=
  match s.boardType with
  | .Chessboard =>
      { s with mCalibdata := { s.mCalibdata with
          imagePoints := s.mCalibdata.imagePoints ++ [s.mCurrentImagePoints],
          objectPoints := s.mCalibdata.objectPoints ++ [chessboardObjectPoints s.boardW s.boardH] } }
  | .chAruco =>
      { s with mCalibdata := { s.mCalibdata with
          allCharucoCorners := s.mCalibdata.allCharucoCorners ++ [s.mCurrentCharucoCorners],
          allCharucoIds := s.mCalibdata.allCharucoIds ++ [s.mCurrentCharucoIds] } }
  | .AcirclesGrid =>
      { s with mCalibdata := { s.mCalibdata with
          imagePoints := s.mCalibdata.imagePoints ++ [s.mCurrentImagePoints],
          objectPoints := s.mCalibdata.objectPoints ++ [acirclesObjectPoints s.boardW s.boardH] } }
  | .DoubleAcirclesGrid =>
      { s with mCalibdata := { s.mCalibdata with
          imagePoints := s.mCalibdata.imagePoints ++ [s.mCurrentImagePoints],
          objectPoints := s.mCalibdata.objectPoints ++ [doubleAcirclesObjectPoints s.boardW s.boardH] } }

/-- `delayBetweenCaptures = 30`: both the history capacity and the
full-window requirement. -/
def delayBetweenCaptures : Nat := 30

/-- The square of `maxTemplateOffset = sqrt(960² + 1280²)/20 = 80`. -/
def maxTemplateOffsetSq : ℚ := 6400

/-- The detection dispatch at the top of `CalibProcessor::processFrame`. -/
def detectPhase (f : Frame) (s : CalibState) : Bool × CalibState :=
  match s.boardType with
  | .Chessboard => detectAndParseChessboard f s
  | .chAruco => detectAndParseChAruco f s
  | .AcirclesGrid => detectAndParseACircles f s
  | .DoubleAcirclesGrid => detectAndParseDualACircles f s

/-- `if (mTemplateLocations.size() > delayBetweenCaptures) pop_back()`:
drop the oldest (last) entry once the history exceeds capacity. -/
def evictPhase (s : CalibState) : CalibState :=
  if delayBetweenCaptures < s.mTemplateLocations.length
  then { s with mTemplateLocations := s.mTemplateLocations.dropLast }
  else s

/-- The trigger test of `processFrame`: history exactly at capacity, the
current detection succeeded, and
`cv::norm(mTemplateLocations[0] - mTemplateLocations[29]) < maxTemplateOffset`. -/
def triggerHolds (isTemplateFound : Bool) (s : CalibState) : Bool :=
  decide (s.mTemplateLocations.length = delayBetweenCaptures) && isTemplateFound &&
  decide (normSq (s.mTemplateLocations.getD 0 default)
      (s.mTemplateLocations.getD (delayBetweenCaptures - 1) default) < maxTemplateOffsetSq)

/-- The capture action: `saveFrameData(); mCapuredFrames++;
mTemplateLocations.clear(); mTemplateLocations.resize(delayBetweenCaptures)` —
the resize refills the history with 30 value-initialised `(0,0)` points. -/
def captureFrame (s : CalibState) : CalibState :=
  let s1 := saveFrameData s
  { s1 with mCapuredFrames := s1.mCapuredFrames + 1,
            mTemplateLocations := List.replicate delayBetweenCaptures ((0 : ℚ), (0 : ℚ)) }

/-- `CalibProcessor::processFrame`: clear the current image points, run
the family's detector, evict past capacity, and capture when the trigger
holds. -/
def processFrame (f : Frame) (s : CalibState) : CalibState :=
  let s0 := { s with mCurrentImagePoints := [] }
  let r := detectPhase f s0
  let s1 := evictPhase r.2
  if triggerHolds r.1 s1 then captureFrame s1 else s1

/-- `CalibProcessor::resetState`. -/
def resetState (s : CalibState) : CalibState :=
  { s with mCapuredFrames := 0, mTemplateLocations := [] }

/-- `CalibProcessor::isProcessed`. -/
def isProcessed (s : CalibState) : Bool :=
  decide (s.mNeededFramesNum ≤ s.mCapuredFrames)

/-- The state right after `CalibProcessor`'s constructor: zero captured
frames, target one frame, empty history and buffers, and the given shared
dataset assumed fresh. -/
def initState (bt : TemplateType) (w h : Nat) : CalibState :=
  { boardType := bt, boardW := w, boardH := h,
    mCapuredFrames := 0, mNeededFramesNum := 1,
    mTemplateLocations := [], mCurrentImagePoints := [],
    mCurrentCharucoCorners := [], mCurrentCharucoIds := [],
    mCalibdata := emptyData }

/-- Feed a sequence of frames through `processFrame`, first frame first. -/
def runFrames (s : CalibState) : List Frame → CalibState
  | [] => s
  | f :: fs => runFrames (processFrame f s) fs

/-- Whether the family's detector reports the template found on a frame
(the `isTemplateFound` flag returned by the `detectAndParse*` call). -/
def templateFound (bt : TemplateType) (f : Frame) : Bool :=
  match bt with
  | .Chessboard => f.chessboard.isSome
  | .chAruco => !f.charucoCorners.isEmpty
  | .AcirclesGrid => f.acircles.isSome
  | .DoubleAcirclesGrid => f.dualWhite.isSome && f.dualBlack.isSome

/-- The anchor point a successful detection inserts at the front of the
history. -/
def anchorOf (bt : TemplateType) (f : Frame) : Point :=
  match bt with
  | .Chessboard => (f.chessboard.getD []).headI
  | .chAruco => centroid f.charucoCorners
  | .AcirclesGrid => (f.acircles.getD []).headI
  | .DoubleAcirclesGrid => ((f.dualWhite.getD []) ++ (f.dualBlack.getD [])).headI

/-- The state right after the detection dispatch inside `processFrame`
(current image points cleared, then the family's detector run). -/
def postDetect (f : Frame) (s : CalibState) : CalibState :=
  (detectPhase f { s with mCurrentImagePoints := [] }).2

/-- The state after this frame's whole history update (detection insert
followed by over-capacity eviction), just before the trigger test. -/
def postEvict (f : Frame) (s : CalibState) : CalibState :=
  evictPhase (postDetect f s)

/-- The trigger test of `processFrame`, expressed on the pre-call state. -/
def codeTrigger (f : Frame) (s : CalibState) : Bool :=
  triggerHolds (templateFound s.boardType f) (postEvict f s)

/-- Number of samples stored in the dataset (geometric pairs plus charuco
pairs; each capture appends to exactly one of the two representations). -/
def numSamples (d : CalibrationData) : Nat :=
  d.imagePoints.length + d.allCharucoCorners.length

/-- How many object points one capture appends for a geometric family. -/
def objPointCount (bt : TemplateType) (w h : Nat) : Nat :=
  match bt with
  | .DoubleAcirclesGrid => 2 * (w * h)
  | _ => w * h

/-- The object-point list `saveFrameData` generates (empty for the
charuco family, which stores corner/id pairs instead). -/
def genObjPoints (bt : TemplateType) (w h : Nat) : List Point3 :=
  match bt with
  | .Chessboard => chessboardObjectPoints w h
  | .chAruco => []
  | .AcirclesGrid => acirclesObjectPoints w h
  | .DoubleAcirclesGrid => doubleAcirclesObjectPoints w h

/-- Row-major enumeration (outer index `i` over rows `0..h-1`, inner
index `j` over columns `0..w-1`) of a per-cell point formula, as the
spec describes object-point generation. -/
def rowMajor (w h : Nat) (p : Nat → Nat → Point3) : List Point3 :=
  (List.range h).flatMap fun i => (List.range w).map fun j => p j i

/-- Spec formula: Chessboard point (j,i) = (j·s, i·s, 0) with s = 16.3. -/
def specChessboardPoint (j i : Nat) : Point3 :=
  ((j : ℚ) * (163 / 10), (i : ℚ) * (163 / 10), 0)

/-- Spec formula: asymmetric circle-grid point (j,i) = ((2j + i mod 2)·s, i·s, 0). -/
def specAcirclesPoint (j i : Nat) : Point3 :=
  ((2 * (j : ℚ) + ((i % 2 : Nat) : ℚ)) * (163 / 10), (i : ℚ) * (163 / 10), 0)

/-- Spec formula: double-grid center x coordinate, cx = (2·(W−1)+1)·s + gap/2. -/
def specDoubleCenterX (w : Nat) : ℚ :=
  (2 * ((w : ℚ) - 1) + 1) * (163 / 10) + 295 / 2

/-- Spec formula: double-grid center y coordinate, cy = (H−1)·s/2. -/
def specDoubleCenterY (h : Nat) : ℚ :=
  ((h : ℚ) - 1) * (163 / 10) / 2

/-- Spec formula: white point (j,i) of the double grid,
(−((2j + i mod 2)·s + gap + (2·(W−1)+1)·s − cx), −(i·s) − cy, 0). -/
def specDoubleWhitePoint (w h j i : Nat) : Point3 :=
  (-((2 * (j : ℚ) + ((i % 2 : Nat) : ℚ)) * (163 / 10) + 295
      + (2 * ((w : ℚ) - 1) + 1) * (163 / 10) - specDoubleCenterX w),
   -((i : ℚ) * (163 / 10)) - specDoubleCenterY h, 0)

/-- Spec formula: black point (j,i) of the double grid,
(−((2j + i mod 2)·s − cx), −(i·s) − cy, 0). -/
def specDoubleBlackPoint (w h j i : Nat) : Point3 :=
  (-((2 * (j : ℚ) + ((i % 2 : Nat) : ℚ)) * (163 / 10) - specDoubleCenterX w),
   -((i : ℚ) * (163 / 10)) - specDoubleCenterY h, 0)

/-- Spec-side capture condition (claim C1): after this frame's update the
history holds exactly 30 entries, the current detection succeeded, and
the distance between the newest and the oldest stored anchor is strictly
below `sqrt(1280² + 960²)/20` — equivalently, its square is below
`(1280² + 960²)/20²`. -/
def specCapture (f : Frame) (s : CalibState) : Bool :=
  let locs := (postEvict f s).mTemplateLocations
  decide (locs.length = 30) && templateFound s.boardType f &&
  decide (normSq locs.headI (locs.getLastD default) < ((1280 ^ 2 + 960 ^ 2 : ℚ) / 20 ^ 2))

/-- A frame on which the chessboard detector finds the pattern at a fixed
location (1,1). -/
def steadyChessFrame : Frame :=
  { chessboard := some [((1 : ℚ), (1 : ℚ))], acircles := none, dualWhite := none,
    dualBlack := none, charucoCorners := [], charucoIds := [] }

/-- A frame on which every detector fails (pattern out of view). -/
def missFrame : Frame :=
  { chessboard := none, acircles := none, dualWhite := none,
    dualBlack := none, charucoCorners := [], charucoIds := [] }

/-- A frame whose chessboard detection is at (100·i, 0): anchors far
apart frame-to-frame, so the movement threshold always fails. -/
def movingChessFrame (i : Nat) : Frame :=
  { chessboard := some [(((i : ℚ)) * 100, 0)], acircles := none, dualWhite := none,
    dualBlack := none, charucoCorners := [], charucoIds := [] }

/-- A state one detection away from a capture: 29 anchors at (1,1). -/
def preTrigState : CalibState :=
  { initState .Chessboard 1 1 with
      mTemplateLocations := List.replicate 29 ((1 : ℚ), (1 : ℚ)) }

/-- A reachable full-history state: 30 widely spaced detections, no
capture so far. -/
def fullHistoryState : CalibState :=
  runFrames (initState .Chessboard 1 1) ((List.range 30).map movingChessFrame)

/-- A frame where both sub-grids of the double circle grid are found. -/
def dualOkFrame : Frame :=
  { chessboard := none, acircles := none,
    dualWhite := some [((1 : ℚ), (2 : ℚ))], dualBlack := some [((3 : ℚ), (4 : ℚ))],
    charucoCorners := [], charucoIds := [] }

/-- A frame where only the inverted-image (black) sub-grid is found. -/
def dualHalfFrame : Frame :=
  { chessboard := none, acircles := none,
    dualWhite := none, dualBlack := some [((3 : ℚ), (4 : ℚ))],
    charucoCorners := [], charucoIds := [] }

/-- Whether a boolean sequence contains a run of `n` consecutive `true`s. -/
def hasTrueRun (n : Nat) (bs : List Bool) : Bool :=
  (List.range (bs.length + 1)).any fun i =>
    (((bs.drop i).take n).length == n) && ((bs.drop i).take n).all (fun b => b)

/-- 29 steady detections, one dropped frame, one more steady detection:
the longest run of consecutive detections is 29. -/
def c3frames : List Frame :=
  List.replicate 29 steadyChessFrame ++ [missFrame, steadyChessFrame]

/-- The dataset shape invariant (claim C10): image/object sample lists in
lock-step, charuco corner/id lists in lock-step, every stored object-point
entry of the family's exact size, and only one of the two representations
ever populated (the geometric one for geometric families, the charuco one
for the marker family). -/
def datasetInv (bt : TemplateType) (w h : Nat) (d : CalibrationData) : Prop :=
  d.imagePoints.length = d.objectPoints.length ∧
  d.allCharucoCorners.length = d.allCharucoIds.length ∧
  (d.objectPoints.all fun ops => ops.length == objPointCount bt w h) = true ∧
  (if bt = .chAruco then d.imagePoints = [] ∧ d.objectPoints = []
   else d.allCharucoCorners = [] ∧ d.allCharucoIds = [])

lemma headI_eq_getD_zero (l : List Point) : l.headI = l.getD 0 default := by
  cases l <;> rfl

lemma getD_last_eq_getLastD (l : List Point) (h : l.length = 30) :
    l.getD 29 default = l.getLastD default := by
  rw [List.getLastD_eq_getLast?, List.getLast?_eq_getElem?, h]
  rw [List.getD_eq_getD_get?]
  simp

lemma detectPhase_spec (f : Frame) (s : CalibState) :
    (detectPhase f s).1 = templateFound s.boardType f ∧
    (detectPhase f s).2.mTemplateLocations =
      (if templateFound s.boardType f then anchorOf s.boardType f :: s.mTemplateLocations
       else s.mTemplateLocations) ∧
    (detectPhase f s).2.boardType = s.boardType ∧
    (detectPhase f s).2.boardW = s.boardW ∧
    (detectPhase f s).2.boardH = s.boardH ∧
    (detectPhase f s).2.mCapuredFrames = s.mCapuredFrames ∧
    (detectPhase f s).2.mNeededFramesNum = s.mNeededFramesNum ∧
    (detectPhase f s).2.mCalibdata = s.mCalibdata := by
  rcases s with ⟨bt, bw, bh, cf, nf, tl, cip, ccc, cci, cd⟩
  cases bt
  case Chessboard =>
    cases hc : f.chessboard <;>
      simp [detectPhase, detectAndParseChessboard, templateFound, anchorOf, hc]
  case chAruco =>
    cases hc : f.charucoCorners <;>
      simp [detectPhase, detectAndParseChAruco, templateFound, anchorOf, hc]
  case AcirclesGrid =>
    cases hc : f.acircles <;>
      simp [detectPhase, detectAndParseACircles, templateFound, anchorOf, hc]
  case DoubleAcirclesGrid =>
    cases hw : f.dualWhite <;> cases hb : f.dualBlack <;>
      simp [detectPhase, detectAndParseDualACircles, templateFound, anchorOf, hw, hb]

lemma evictPhase_spec (s : CalibState) :
    (evictPhase s).mTemplateLocations =
      (if 30 < s.mTemplateLocations.length then s.mTemplateLocations.dropLast
       else s.mTemplateLocations) ∧
    (evictPhase s).boardType = s.boardType ∧
    (evictPhase s).boardW = s.boardW ∧
    (evictPhase s).boardH = s.boardH ∧
    (evictPhase s).mCapuredFrames = s.mCapuredFrames ∧
    (evictPhase s).mNeededFramesNum = s.mNeededFramesNum ∧
    (evictPhase s).mCurrentImagePoints = s.mCurrentImagePoints ∧
    (evictPhase s).mCalibdata = s.mCalibdata := by
  by_cases h : 30 < s.mTemplateLocations.length <;>
    simp [evictPhase, delayBetweenCaptures, h]

lemma saveFrameData_fields (s : CalibState) :
    (saveFrameData s).boardType = s.boardType ∧
    (saveFrameData s).boardW = s.boardW ∧
    (saveFrameData s).boardH = s.boardH ∧
    (saveFrameData s).mCapuredFrames = s.mCapuredFrames ∧
    (saveFrameData s).mNeededFramesNum = s.mNeededFramesNum ∧
    (saveFrameData s).mTemplateLocations = s.mTemplateLocations ∧
    (saveFrameData s).mCurrentImagePoints = s.mCurrentImagePoints := by
  rcases s with ⟨bt, bw, bh, cf, nf, tl, cip, ccc, cci, cd⟩
  cases bt <;> simp [saveFrameData]

lemma saveFrameData_data (s : CalibState) :
    (saveFrameData s).mCalibdata.imagePoints =
      s.mCalibdata.imagePoints ++
        (if s.boardType = .chAruco then [] else [s.mCurrentImagePoints]) ∧
    (saveFrameData s).mCalibdata.objectPoints =
      s.mCalibdata.objectPoints ++
        (if s.boardType = .chAruco then []
         else [genObjPoints s.boardType s.boardW s.boardH]) ∧
    (saveFrameData s).mCalibdata.allCharucoCorners =
      s.mCalibdata.allCharucoCorners ++
        (if s.boardType = .chAruco then [s.mCurrentCharucoCorners] else []) ∧
    (saveFrameData s).mCalibdata.allCharucoIds =
      s.mCalibdata.allCharucoIds ++
        (if s.boardType = .chAruco then [s.mCurrentCharucoIds] else []) := by
  rcases s with ⟨bt, bw, bh, cf, nf, tl, cip, ccc, cci, cd⟩
  cases bt <;> simp [saveFrameData, genObjPoints]

lemma saveFrameData_numSamples (s : CalibState) :
    numSamples (saveFrameData s).mCalibdata = numSamples s.mCalibdata + 1 := by
  rcases s with ⟨bt, bw, bh, cf, nf, tl, cip, ccc, cci, cd⟩
  cases bt <;> simp [saveFrameData, numSamples] <;> omega

lemma captureFrame_spec (s : CalibState) :
    (captureFrame s).mCapuredFrames = s.mCapuredFrames + 1 ∧
    (captureFrame s).mTemplateLocations = List.replicate 30 ((0 : ℚ), (0 : ℚ)) ∧
    (captureFrame s).mCalibdata = (saveFrameData s).mCalibdata ∧
    (captureFrame s).boardType = s.boardType ∧
    (captureFrame s).boardW = s.boardW ∧
    (captureFrame s).boardH = s.boardH ∧
    (captureFrame s).mNeededFramesNum = s.mNeededFramesNum ∧
    (captureFrame s).mCurrentImagePoints = s.mCurrentImagePoints := by
  obtain ⟨h1, h2, h3, h4, h5, h6, h7⟩ := saveFrameData_fields s
  simp [captureFrame, delayBetweenCaptures, h1, h2, h3, h4, h5, h6, h7]

lemma processFrame_eq (f : Frame) (s : CalibState) :
    processFrame f s =
      if codeTrigger f s then captureFrame (postEvict f s) else postEvict f s := by
  have h := (detectPhase_spec f { s with mCurrentImagePoints := [] }).1
  simp only [processFrame, postEvict, postDetect, codeTrigger, h]

lemma postDetect_locs (f : Frame) (s : CalibState) :
    (postDetect f s).mTemplateLocations =
      (if templateFound s.boardType f then anchorOf s.boardType f :: s.mTemplateLocations
       else s.mTemplateLocations) := by
  simpa using (detectPhase_spec f { s with mCurrentImagePoints := [] }).2.1

lemma postDetect_fields (f : Frame) (s : CalibState) :
    (postDetect f s).boardType = s.boardType ∧
    (postDetect f s).boardW = s.boardW ∧
    (postDetect f s).boardH = s.boardH ∧
    (postDetect f s).mCapuredFrames = s.mCapuredFrames ∧
    (postDetect f s).mNeededFramesNum = s.mNeededFramesNum ∧
    (postDetect f s).mCalibdata = s.mCalibdata := by
  simpa using (detectPhase_spec f { s with mCurrentImagePoints := [] }).2.2

lemma postEvict_locs (f : Frame) (s : CalibState) :
    (postEvict f s).mTemplateLocations =
      (if 30 < (postDetect f s).mTemplateLocations.length
       then (postDetect f s).mTemplateLocations.dropLast
       else (postDetect f s).mTemplateLocations) :=
  (evictPhase_spec (postDetect f s)).1

lemma postEvict_fields (f : Frame) (s : CalibState) :
    (postEvict f s).boardType = s.boardType ∧
    (postEvict f s).boardW = s.boardW ∧
    (postEvict f s).boardH = s.boardH ∧
    (postEvict f s).mCapuredFrames = s.mCapuredFrames ∧
    (postEvict f s).mNeededFramesNum = s.mNeededFramesNum ∧
    (postEvict f s).mCalibdata = s.mCalibdata := by
  obtain ⟨-, e2, e3, e4, e5, e6, -, e8⟩ := evictPhase_spec (postDetect f s)
  obtain ⟨d1, d2, d3, d4, d5, d6⟩ := postDetect_fields f s
  exact ⟨e2.trans d1, e3.trans d2, e4.trans d3, e5.trans d4, e6.trans d5, e8.trans d6⟩

lemma processFrame_config (f : Frame) (s : CalibState) :
    (processFrame f s).boardType = s.boardType ∧
    (processFrame f s).boardW = s.boardW ∧
    (processFrame f s).boardH = s.boardH ∧
    (processFrame f s).mNeededFramesNum = s.mNeededFramesNum := by
  rw [processFrame_eq]
  obtain ⟨p1, p2, p3, p4, p5, p6⟩ := postEvict_fields f s
  by_cases h : codeTrigger f s
  · obtain ⟨c1, c2, c3, c4, c5, c6, c7, c8⟩ := captureFrame_spec (postEvict f s)
    simp only [h, if_true]
    exact ⟨c4.trans p1, c5.trans p2, c6.trans p3, c7.trans p5⟩
  · simp only [h, if_false, Bool.false_eq_true]
    exact ⟨p1, p2, p3, p5⟩

lemma processFrame_captured (f : Frame) (s : CalibState) :
    (processFrame f s).mCapuredFrames =
      if codeTrigger f s then s.mCapuredFrames + 1 else s.mCapuredFrames := by
  rw [processFrame_eq]
  by_cases h : codeTrigger f s <;> simp only [h, if_true, if_false, Bool.false_eq_true]
  · rw [(captureFrame_spec _).1, (postEvict_fields f s).2.2.2.1]
  · exact (postEvict_fields f s).2.2.2.1

lemma processFrame_calibdata (f : Frame) (s : CalibState) :
    (processFrame f s).mCalibdata =
      if codeTrigger f s then (saveFrameData (postEvict f s)).mCalibdata
      else s.mCalibdata := by
  rw [processFrame_eq]
  by_cases h : codeTrigger f s <;> simp only [h, if_true, if_false, Bool.false_eq_true]
  · exact (captureFrame_spec _).2.2.1
  · exact (postEvict_fields f s).2.2.2.2.2

lemma processFrame_locs (f : Frame) (s : CalibState) :
    (processFrame f s).mTemplateLocations =
      if codeTrigger f s then List.replicate 30 ((0 : ℚ), (0 : ℚ))
      else (postEvict f s).mTemplateLocations := by
  rw [processFrame_eq]
  by_cases h : codeTrigger f s <;> simp only [h, if_true, if_false, Bool.false_eq_true]
  exact (captureFrame_spec _).2.1

lemma postDetect_locs_length (f : Frame) (s : CalibState)
    (h : s.mTemplateLocations.length ≤ 30) :
    (postDetect f s).mTemplateLocations.length ≤ 31 := by
  rw [postDetect_locs]
  by_cases hf : templateFound s.boardType f <;> simp [hf] <;> omega

lemma postEvict_locs_length (f : Frame) (s : CalibState)
    (h : s.mTemplateLocations.length ≤ 30) :
    (postEvict f s).mTemplateLocations.length ≤ 30 := by
  have h31 := postDetect_locs_length f s h
  rw [postEvict_locs]
  by_cases h30 : 30 < (postDetect f s).mTemplateLocations.length <;> simp [h30]
  · exact h31
  · omega

lemma processFrame_locs_length (f : Frame) (s : CalibState)
    (h : s.mTemplateLocations.length ≤ 30) :
    (processFrame f s).mTemplateLocations.length ≤ 30 := by
  rw [processFrame_locs]
  by_cases ht : codeTrigger f s <;> simp [ht]
  exact postEvict_locs_length f s h

lemma runFrames_locs_length (fs : List Frame) : ∀ s : CalibState,
    s.mTemplateLocations.length ≤ 30 →
    (runFrames s fs).mTemplateLocations.length ≤ 30 := by
  induction fs with
  | nil => intro s h; exact h
  | cons f fs ih => intro s h; exact ih _ (processFrame_locs_length f s h)

lemma runFrames_config (fs : List Frame) : ∀ s : CalibState,
    (runFrames s fs).boardType = s.boardType ∧
    (runFrames s fs).boardW = s.boardW ∧
    (runFrames s fs).boardH = s.boardH ∧
    (runFrames s fs).mNeededFramesNum = s.mNeededFramesNum := by
  induction fs with
  | nil => intro s; exact ⟨rfl, rfl, rfl, rfl⟩
  | cons f fs ih =>
    intro s
    obtain ⟨a, b, c, d⟩ := ih (processFrame f s)
    obtain ⟨e, g, i, j⟩ := processFrame_config f s
    exact ⟨a.trans e, b.trans g, c.trans i, d.trans j⟩

lemma codeTrigger_eq_specCapture (f : Frame) (s : CalibState) :
    codeTrigger f s = specCapture f s := by
  unfold codeTrigger specCapture triggerHolds
  by_cases h30 : (postEvict f s).mTemplateLocations.length = 30
  · have h0 : (postEvict f s).mTemplateLocations.getD 0 default =
        (postEvict f s).mTemplateLocations.headI := (headI_eq_getD_zero _).symm
    have hl : (postEvict f s).mTemplateLocations.getD (delayBetweenCaptures - 1) default =
        (postEvict f s).mTemplateLocations.getLastD default := by
      have h29 : delayBetweenCaptures - 1 = 29 := rfl
      rw [h29, getD_last_eq_getLastD _ h30]
    have hthr : maxTemplateOffsetSq = ((1280 ^ 2 + 960 ^ 2 : ℚ) / 20 ^ 2) := by
      norm_num [maxTemplateOffsetSq]
    rw [h0, hl, hthr]
    simp [delayBetweenCaptures]
  · simp [delayBetweenCaptures, h30]

lemma step_no_trigger_of_small (f : Frame) (s : CalibState)
    (h : s.mTemplateLocations.length + (if templateFound s.boardType f then 1 else 0) ≤ 29) :
    codeTrigger f s = false ∧
    (processFrame f s).mCapuredFrames = s.mCapuredFrames ∧
    (processFrame f s).mTemplateLocations.length =
      s.mTemplateLocations.length + (if templateFound s.boardType f then 1 else 0) := by
  have hlen : (postEvict f s).mTemplateLocations.length =
      s.mTemplateLocations.length + (if templateFound s.boardType f then 1 else 0) := by
    rw [postEvict_locs, postDetect_locs]
    by_cases hf : templateFound s.boardType f
    · simp only [hf, if_true] at h ⊢
      have hc : ¬ (30 < (anchorOf s.boardType f :: s.mTemplateLocations).length) := by
        simp only [List.length_cons]; omega
      rw [if_neg hc]; simp
    · simp only [hf, if_false, Bool.false_eq_true] at h ⊢
      have hc : ¬ (30 < s.mTemplateLocations.length) := by omega
      rw [if_neg hc]; simp
  have h30 : (postEvict f s).mTemplateLocations.length ≠ 30 := by
    rw [hlen]
    by_cases hf : templateFound s.boardType f <;> simp only [hf, if_true, if_false] at h ⊢ <;>
      omega
  have htrig : codeTrigger f s = false := by
    unfold codeTrigger triggerHolds
    simp [delayBetweenCaptures, h30]
  refine ⟨htrig, ?_, ?_⟩
  · rw [processFrame_captured, htrig]; simp
  · rw [processFrame_locs, htrig]; simp [hlen]

lemma run_no_capture_aux (fs : List Frame) : ∀ s : CalibState,
    s.mTemplateLocations.length + fs.countP (templateFound s.boardType) ≤ 29 →
    (runFrames s fs).mCapuredFrames = s.mCapuredFrames := by
  induction fs with
  | nil => intro s _; rfl
  | cons f fs ih =>
    intro s h
    rw [List.countP_cons] at h
    have hsmall : s.mTemplateLocations.length +
        (if templateFound s.boardType f then 1 else 0) ≤ 29 := by
      by_cases hf : templateFound s.boardType f <;>
        simp only [hf, if_true, if_false] at h ⊢ <;> omega
    obtain ⟨htrig, hcap, hlen⟩ := step_no_trigger_of_small f s hsmall
    have hbt := (processFrame_config f s).1
    have h2 : (processFrame f s).mTemplateLocations.length +
        fs.countP (templateFound (processFrame f s).boardType) ≤ 29 := by
      rw [hbt, hlen]
      by_cases hf : templateFound s.boardType f <;>
        simp only [hf, if_true, if_false] at h ⊢ <;> omega
    calc (runFrames s (f :: fs)).mCapuredFrames
        = (runFrames (processFrame f s) fs).mCapuredFrames := rfl
      _ = (processFrame f s).mCapuredFrames := ih _ h2
      _ = s.mCapuredFrames := hcap

lemma rowMajor_congr (w h : Nat) (p q : Nat → Nat → Point3)
    (H : ∀ j i : Nat, p j i = q j i) : rowMajor w h p = rowMajor w h q := by
  unfold rowMajor
  exact congrArg (fun g => (List.range h).flatMap g)
    (funext fun i => congrArg (fun g2 => (List.range w).map g2) (funext fun j => H j i))

lemma rowMajor_length (w h : Nat) (p : Nat → Nat → Point3) :
    (rowMajor w h p).length = w * h := by
  unfold rowMajor
  induction h with
  | zero => simp
  | succ n ih =>
    rw [List.range_succ, List.flatMap_append]
    simp [ih, Nat.mul_succ]

lemma chessboard_eq_rowMajor (w h : Nat) :
    chessboardObjectPoints w h = rowMajor w h specChessboardPoint := by
  show rowMajor w h (fun j i =>
      ((j : ℚ) * squareSize, (i : ℚ) * squareSize, 0)) = rowMajor w h specChessboardPoint
  refine rowMajor_congr w h _ _ fun j i => ?_
  simp [specChessboardPoint, squareSize]

lemma acircles_eq_rowMajor (w h : Nat) :
    acirclesObjectPoints w h = rowMajor w h specAcirclesPoint := by
  show rowMajor w h (fun j i =>
      (((2 * j + i % 2 : Nat) : ℚ) * squareSize, (i : ℚ) * squareSize, 0)) =
    rowMajor w h specAcirclesPoint
  refine rowMajor_congr w h _ _ fun j i => ?_
  have hc : ((2 * j + i % 2 : Nat) : ℚ) = 2 * (j : ℚ) + ((i % 2 : Nat) : ℚ) := by
    push_cast
    ring
  simp [specAcirclesPoint, squareSize, hc]

lemma doubleAcircles_eq_rowMajor (w h : Nat) :
    doubleAcirclesObjectPoints w h =
      rowMajor w h (specDoubleWhitePoint w h) ++ rowMajor w h (specDoubleBlackPoint w h) := by
  show rowMajor w h (fun j i =>
      (-(((2 * j + i % 2 : Nat) : ℚ) * squareSize + acircleGrid2Distance
          + (2 * ((w : ℚ) - 1) + 1) * squareSize
          - ((2 * ((w : ℚ) - 1) + 1) * squareSize + acircleGrid2Distance / 2)),
       -((i : ℚ) * squareSize) - ((h : ℚ) - 1) * squareSize / 2, 0)) ++
    rowMajor w h (fun j i =>
      (-(((2 * j + i % 2 : Nat) : ℚ) * squareSize
          - ((2 * ((w : ℚ) - 1) + 1) * squareSize + acircleGrid2Distance / 2)),
       -((i : ℚ) * squareSize) - ((h : ℚ) - 1) * squareSize / 2, 0)) = _
  refine congrArg₂ (fun a b : List Point3 => a ++ b) ?_ ?_
  · refine rowMajor_congr w h _ _ fun j i => ?_
    have hc : ((2 * j + i % 2 : Nat) : ℚ) = 2 * (j : ℚ) + ((i % 2 : Nat) : ℚ) := by
      push_cast
      ring
    simp [specDoubleWhitePoint, specDoubleCenterX, specDoubleCenterY, squareSize,
      acircleGrid2Distance, hc]
  · refine rowMajor_congr w h _ _ fun j i => ?_
    have hc : ((2 * j + i % 2 : Nat) : ℚ) = 2 * (j : ℚ) + ((i % 2 : Nat) : ℚ) := by
      push_cast
      ring
    simp [specDoubleBlackPoint, specDoubleCenterX, specDoubleCenterY, squareSize,
      acircleGrid2Distance, hc]

lemma genObjPoints_length (bt : TemplateType) (w h : Nat) (hbt : bt ≠ .chAruco) :
    (genObjPoints bt w h).length = objPointCount bt w h := by
  cases bt
  case Chessboard =>
    show (chessboardObjectPoints w h).length = w * h
    rw [chessboard_eq_rowMajor, rowMajor_length]
  case chAruco => exact absurd rfl hbt
  case AcirclesGrid =>
    show (acirclesObjectPoints w h).length = w * h
    rw [acircles_eq_rowMajor, rowMajor_length]
  case DoubleAcirclesGrid =>
    show (doubleAcirclesObjectPoints w h).length = 2 * (w * h)
    rw [doubleAcircles_eq_rowMajor, List.length_append, rowMajor_length, rowMajor_length]
    omega

lemma datasetInv_step (f : Frame) (s : CalibState) (bt : TemplateType) (w h : Nat)
    (hbt : s.boardType = bt) (hw : s.boardW = w) (hh : s.boardH = h)
    (hinv : datasetInv bt w h s.mCalibdata) :
    datasetInv bt w h (processFrame f s).mCalibdata := by
  rw [processFrame_calibdata]
  by_cases ht : codeTrigger f s
  · simp only [ht, if_true]
    obtain ⟨d1, d2, d3, d4⟩ := saveFrameData_data (postEvict f s)
    obtain ⟨p1, p2, p3, -, -, p6⟩ := postEvict_fields f s
    have e1 : (saveFrameData (postEvict f s)).mCalibdata.imagePoints =
        s.mCalibdata.imagePoints ++
          (if bt = .chAruco then [] else [(postEvict f s).mCurrentImagePoints]) := by
      rw [d1, p6, p1, hbt]
    have e2 : (saveFrameData (postEvict f s)).mCalibdata.objectPoints =
        s.mCalibdata.objectPoints ++
          (if bt = .chAruco then [] else [genObjPoints bt w h]) := by
      rw [d2, p6, p1, p2, p3, hbt, hw, hh]
    have e3 : (saveFrameData (postEvict f s)).mCalibdata.allCharucoCorners =
        s.mCalibdata.allCharucoCorners ++
          (if bt = .chAruco then [(postEvict f s).mCurrentCharucoCorners] else []) := by
      rw [d3, p6, p1, hbt]
    have e4 : (saveFrameData (postEvict f s)).mCalibdata.allCharucoIds =
        s.mCalibdata.allCharucoIds ++
          (if bt = .chAruco then [(postEvict f s).mCurrentCharucoIds] else []) := by
      rw [d4, p6, p1, hbt]
    obtain ⟨i1, i2, i3, i4⟩ := hinv
    by_cases hA : bt = .chAruco
    · subst hA
      rw [if_pos rfl] at i4
      refine ⟨?_, ?_, ?_, ?_⟩
      · rw [e1, e2]; simp [i1]
      · rw [e3, e4]; simp [i2]
      · rw [e2]; simpa using i3
      · rw [if_pos rfl]
        exact ⟨by rw [e1]; simp [i4.1], by rw [e2]; simp [i4.2]⟩
    · rw [if_neg hA] at i4
      refine ⟨?_, ?_, ?_, ?_⟩
      · rw [e1, e2]; simp [hA, i1]
      · rw [e3, e4]; simp [hA, i2]
      · rw [e2, if_neg hA, List.all_append, Bool.and_eq_true]
        refine ⟨i3, ?_⟩
        simp [genObjPoints_length bt w h hA]
      · rw [if_neg hA]
        exact ⟨by rw [e3]; simp [hA, i4.1], by rw [e4]; simp [hA, i4.2]⟩
  · simp only [ht, if_false, Bool.false_eq_true]
    exact hinv

lemma datasetInv_run (bt : TemplateType) (w h : Nat) (fs : List Frame) :
    ∀ s : CalibState, s.boardType = bt → s.boardW = w → s.boardH = h →
    datasetInv bt w h s.mCalibdata → datasetInv bt w h (runFrames s fs).mCalibdata := by
  induction fs with
  | nil => intro s _ _ _ hinv; exact hinv
  | cons f fs ih =>
    intro s hbt hw hh hinv
    obtain ⟨c1, c2, c3, -⟩ := processFrame_config f s
    exact ih (processFrame f s) (c1.trans hbt) (c2.trans hw) (c3.trans hh)
      (datasetInv_step f s bt w h hbt hw hh hinv)

lemma datasetInv_empty (bt : TemplateType) (w h : Nat) : datasetInv bt w h emptyData := by
  by_cases hA : bt = .chAruco <;> simp [datasetInv, emptyData, hA]

/-- Claim C1: on every `processFrame` call, a capture — appending one sample
to the dataset and incrementing the captured-frame count — occurs exactly
when, after this frame's history update, the history holds exactly 30
entries, the current frame's detection succeeded, and the Euclidean
distance between the newest and the oldest stored anchor is strictly below
sqrt(1280² + 960²)/20 (stated on squared distances); otherwise both the
count and the dataset size are unchanged. -/
theorem processFrame_capture_iff_spec (f : Frame) (s : CalibState) :
    (processFrame f s).mCapuredFrames =
      (if specCapture f s then s.mCapuredFrames + 1 else s.mCapuredFrames) ∧
    numSamples (processFrame f s).mCalibdata =
      (if specCapture f s then numSamples s.mCalibdata + 1
       else numSamples s.mCalibdata) := by
  rw [← codeTrigger_eq_specCapture]
  refine ⟨processFrame_captured f s, ?_⟩
  rw [processFrame_calibdata]
  by_cases h : codeTrigger f s <;> simp only [h, if_true, if_false, Bool.false_eq_true]
  rw [saveFrameData_numSamples, (postEvict_fields f s).2.2.2.2.2]

set_option maxRecDepth 100000 in
/-- Claim C2 counterexample: run 30 steady detections at (1,1) from the
initial state: the trigger fires (1 capture) yet the history is not empty
immediately afterwards; one more steady frame fires a second trigger, so
the same steady hold re-fires without 30 further detection frames. -/
theorem capture_history_not_empty_cx :
    (runFrames (initState .Chessboard 1 1)
        (List.replicate 30 steadyChessFrame)).mCapuredFrames = 1 ∧
    (runFrames (initState .Chessboard 1 1)
        (List.replicate 30 steadyChessFrame)).mTemplateLocations ≠ [] ∧
    (runFrames (initState .Chessboard 1 1)
        (List.replicate 31 steadyChessFrame)).mCapuredFrames = 2 := by
  with_unfolding_all decide

/-- Claim C2 (amended): immediately after a capture trigger fires inside
`processFrame` the anchor history is not empty but holds exactly 30
entries, all equal to (0,0) (`clear()` followed by `resize(30)`); hence a
steady hold whose anchor lies within the movement threshold of the origin
can fire again on the very next detection frame, and only holds away from
the origin need 30 further detection frames. -/
theorem capture_resets_history_to_capacity_zeros (f : Frame) (s : CalibState)
    (hcap : (processFrame f s).mCapuredFrames = s.mCapuredFrames + 1) :
    (processFrame f s).mTemplateLocations = List.replicate 30 ((0 : ℚ), (0 : ℚ)) := by
  rw [processFrame_locs]
  by_cases ht : codeTrigger f s
  · simp [ht]
  · rw [processFrame_captured] at hcap
    simp only [ht, if_false, Bool.false_eq_true] at hcap
    omega

/-- Witness for the amended C2 theorem at a concrete capture input. -/
theorem capture_resets_history_to_capacity_zeros_witness :
    (processFrame steadyChessFrame preTrigState).mCapuredFrames =
      preTrigState.mCapuredFrames + 1 ∧
    (processFrame steadyChessFrame preTrigState).mTemplateLocations =
      List.replicate 30 ((0 : ℚ), (0 : ℚ)) :=
  ⟨by with_unfolding_all decide,
   capture_resets_history_to_capacity_zeros steadyChessFrame preTrigState
     (by with_unfolding_all decide)⟩

set_option maxRecDepth 100000 in
/-- Claim C3 counterexample: 29 steady detections, one dropped frame, one
more steady detection — no 30 consecutive detection frames anywhere in the
sequence — yet a capture trigger fires. -/
theorem trigger_without_30_consecutive_cx :
    hasTrueRun 30 (c3frames.map (templateFound .Chessboard)) = false ∧
    (runFrames (initState .Chessboard 1 1) c3frames).mCapuredFrames = 1 := by
  with_unfolding_all decide

/-- Claim C3 (amended): from the initial state, if the sequence contains
fewer than 30 successfully detected frames in total (consecutive or not),
no capture trigger ever fires. -/
theorem no_capture_under_30_total_detections (bt : TemplateType) (w h : Nat)
    (fs : List Frame) (hc : fs.countP (templateFound bt) < 30) :
    (runFrames (initState bt w h) fs).mCapuredFrames = 0 := by
  have h0 : (initState bt w h).mTemplateLocations.length +
      fs.countP (templateFound (initState bt w h).boardType) ≤ 29 := by
    simp only [initState, List.length_nil]
    omega
  exact run_no_capture_aux fs (initState bt w h) h0

/-- Witness for the amended C3 theorem at a concrete input. -/
theorem no_capture_under_30_total_detections_witness :
    ([steadyChessFrame].countP (templateFound .Chessboard) < 30) ∧
    (runFrames (initState .Chessboard 1 1) [steadyChessFrame]).mCapuredFrames = 0 :=
  ⟨by with_unfolding_all decide,
   no_capture_under_30_total_detections .Chessboard 1 1 [steadyChessFrame]
     (by with_unfolding_all decide)⟩

set_option maxRecDepth 100000 in
/-- Claim C4 counterexample: a reachable state whose history is exactly at
its 30-entry capacity with no capture yet; a dropped frame leaves the
history completely unchanged — the oldest entry is NOT evicted. -/
theorem dropped_frame_no_eviction_cx :
    fullHistoryState.mTemplateLocations.length = 30 ∧
    fullHistoryState.mCapuredFrames = 0 ∧
    (processFrame missFrame fullHistoryState).mTemplateLocations =
      fullHistoryState.mTemplateLocations := by
  have hlen : fullHistoryState.mTemplateLocations.length = 30 := by
    with_unfolding_all decide
  have hcap : fullHistoryState.mCapuredFrames = 0 := by
    with_unfolding_all decide
  have hf : templateFound fullHistoryState.boardType missFrame = false := by
    have hbt : fullHistoryState.boardType = .Chessboard :=
      (runFrames_config ((List.range 30).map movingChessFrame) (initState .Chessboard 1 1)).1
    rw [hbt]
    rfl
  have htrig : codeTrigger missFrame fullHistoryState = false := by
    unfold codeTrigger triggerHolds
    simp [hf]
  have h1 : ¬ (templateFound fullHistoryState.boardType missFrame = true) := by simp [hf]
  have h2 : ¬ (30 < fullHistoryState.mTemplateLocations.length) := by omega
  refine ⟨hlen, hcap, ?_⟩
  rw [processFrame_locs, if_neg (by simp [htrig]), postEvict_locs, postDetect_locs,
    if_neg h1, if_neg h2]

/-- Claim C4 (amended): on a call where detection is absent, nothing is
evicted — the anchor history (at capacity or not), the captured-frame
count and the dataset are all left exactly as they were; a dropped frame
contributes neither to eviction nor to the trigger condition. -/
theorem dropped_frame_leaves_history (f : Frame) (s : CalibState)
    (hf : templateFound s.boardType f = false)
    (hlen : s.mTemplateLocations.length ≤ 30) :
    (processFrame f s).mTemplateLocations = s.mTemplateLocations ∧
    (processFrame f s).mCapuredFrames = s.mCapuredFrames ∧
    (processFrame f s).mCalibdata = s.mCalibdata := by
  have htrig : codeTrigger f s = false := by
    unfold codeTrigger triggerHolds
    simp [hf]
  have hlocs : (postEvict f s).mTemplateLocations = s.mTemplateLocations := by
    have h1 : ¬ (templateFound s.boardType f = true) := by simp [hf]
    have h2 : ¬ (30 < s.mTemplateLocations.length) := by omega
    rw [postEvict_locs, postDetect_locs, if_neg h1, if_neg h2]
  refine ⟨?_, ?_, ?_⟩
  · rw [processFrame_locs, if_neg (by simp [htrig])]
    exact hlocs
  · rw [processFrame_captured, if_neg (by simp [htrig])]
  · rw [processFrame_calibdata, if_neg (by simp [htrig])]

set_option maxRecDepth 100000 in
/-- Witness for the amended C4 theorem: a dropped frame on a concrete
full-capacity state. -/
theorem dropped_frame_leaves_history_witness :
    templateFound fullHistoryState.boardType missFrame = false ∧
    fullHistoryState.mTemplateLocations.length ≤ 30 ∧
    (processFrame missFrame fullHistoryState).mTemplateLocations =
      fullHistoryState.mTemplateLocations :=
  ⟨by with_unfolding_all decide, by with_unfolding_all decide,
   (dropped_frame_leaves_history missFrame fullHistoryState
      (by with_unfolding_all decide) (by with_unfolding_all decide)).1⟩

/-- Claim C5: the object points generated on capture for Chessboard and
AsymmetricCircleGrid are the row-major enumeration (rows outer, columns
inner) of the spec formulas with spacing 16.3, and for a 6×9 chessboard
the entry for (j=2, i=1) — list index 1·6+2 — equals (32.6, 16.3, 0). -/
theorem objectPoints_chessboard_acircles_spec (w h : Nat) :
    chessboardObjectPoints w h = rowMajor w h specChessboardPoint ∧
    acirclesObjectPoints w h = rowMajor w h specAcirclesPoint ∧
    (chessboardObjectPoints 6 9).getD (1 * 6 + 2) default = (326 / 10, 163 / 10, 0) :=
  ⟨chessboard_eq_rowMajor w h, acircles_eq_rowMajor w h, by with_unfolding_all decide⟩

/-- Claim C6: the object points generated on capture for
DoubleAsymmetricCircleGrid are the white-grid block followed by the
black-grid block, each in row-major order, with the exact recentering
formulas of the spec (s = 16.3, gap = 295). -/
theorem objectPoints_doubleAcircles_spec (w h : Nat) :
    doubleAcirclesObjectPoints w h =
      rowMajor w h (specDoubleWhitePoint w h) ++ rowMajor w h (specDoubleBlackPoint w h) :=
  doubleAcircles_eq_rowMajor w h

/-- Claim C7: dual-circle-grid detection succeeds exactly when both the
white and the black sub-grid are found; on any failure no points are
retained in the current-image-points buffer after the frame; on success
the retained points are the white points followed by the black points and
the anchor inserted into the history is the first white point. -/
theorem dualACircles_detection_spec (f : Frame) (s : CalibState) :
    ((detectAndParseDualACircles f s).1 = (f.dualWhite.isSome && f.dualBlack.isSome)) ∧
    (s.boardType = .DoubleAcirclesGrid →
      (f.dualWhite.isSome && f.dualBlack.isSome) = false →
      (processFrame f s).mCurrentImagePoints = []) ∧
    (∀ wpts bpts : List Point, f.dualWhite = some wpts → f.dualBlack = some bpts →
      wpts ≠ [] →
      (detectAndParseDualACircles f s).2.mCurrentImagePoints = wpts ++ bpts ∧
      (detectAndParseDualACircles f s).2.mTemplateLocations =
        wpts.headI :: s.mTemplateLocations) := by
  refine ⟨?_, ?_, ?_⟩
  · cases hw : f.dualWhite <;> cases hb : f.dualBlack <;>
      simp [detectAndParseDualACircles, hw, hb]
  · intro hbt hno
    have hf : templateFound s.boardType f = false := by
      rw [hbt]
      exact hno
    have htrig : codeTrigger f s = false := by
      unfold codeTrigger triggerHolds
      simp [hf]
    have him : (postDetect f s).mCurrentImagePoints = [] := by
      unfold postDetect detectPhase
      rcases s with ⟨bt, bw, bh, cf, nf, tl, cip, ccc, cci, cd⟩
      simp only at hbt
      subst hbt
      cases hw : f.dualWhite <;> cases hb : f.dualBlack <;>
        simp_all [detectAndParseDualACircles, templateFound, hw, hb]
    rw [processFrame_eq, if_neg (by simp [htrig])]
    unfold postEvict
    rw [(evictPhase_spec (postDetect f s)).2.2.2.2.2.2.1]
    exact him
  · intro wpts bpts hw hb hne
    cases wpts with
    | nil => exact absurd rfl hne
    | cons a t => simp [detectAndParseDualACircles, hw, hb]

/-- Witness for C7 at concrete inputs: one frame with both sub-grids, one
with only the black sub-grid. -/
theorem dualACircles_detection_spec_witness :
    ((detectAndParseDualACircles dualOkFrame (initState .DoubleAcirclesGrid 1 1)).1 =
      (dualOkFrame.dualWhite.isSome && dualOkFrame.dualBlack.isSome)) ∧
    (processFrame dualHalfFrame (initState .DoubleAcirclesGrid 1 1)).mCurrentImagePoints
      = [] ∧
    (detectAndParseDualACircles dualOkFrame
        (initState .DoubleAcirclesGrid 1 1)).2.mCurrentImagePoints =
      [((1 : ℚ), (2 : ℚ))] ++ [((3 : ℚ), (4 : ℚ))] ∧
    (detectAndParseDualACircles dualOkFrame
        (initState .DoubleAcirclesGrid 1 1)).2.mTemplateLocations =
      [((1 : ℚ), (2 : ℚ))].headI ::
        (initState .DoubleAcirclesGrid 1 1).mTemplateLocations :=
  ⟨(dualACircles_detection_spec dualOkFrame (initState .DoubleAcirclesGrid 1 1)).1,
   (dualACircles_detection_spec dualHalfFrame (initState .DoubleAcirclesGrid 1 1)).2.1
     rfl (by with_unfolding_all decide),
   ((dualACircles_detection_spec dualOkFrame (initState .DoubleAcirclesGrid 1 1)).2.2
     [((1 : ℚ), (2 : ℚ))] [((3 : ℚ), (4 : ℚ))] rfl rfl (by with_unfolding_all decide)).1,
   ((dualACircles_detection_spec dualOkFrame (initState .DoubleAcirclesGrid 1 1)).2.2
     [((1 : ℚ), (2 : ℚ))] [((3 : ℚ), (4 : ℚ))] rfl rfl (by with_unfolding_all decide)).2⟩

/-- Claim C8: `resetState` zeroes the captured-frame count and clears the
anchor history, and changes nothing else — the shared dataset (all
previously appended entries and solver-written fields), the configured
target frame count, the board configuration and the per-frame buffers are
all untouched. -/
theorem resetState_effect (s : CalibState) :
    (resetState s).mCapuredFrames = 0 ∧
    (resetState s).mTemplateLocations = [] ∧
    (resetState s).mCalibdata = s.mCalibdata ∧
    (resetState s).mNeededFramesNum = s.mNeededFramesNum ∧
    (resetState s).boardType = s.boardType ∧
    (resetState s).boardW = s.boardW ∧
    (resetState s).boardH = s.boardH ∧
    (resetState s).mCurrentImagePoints = s.mCurrentImagePoints ∧
    (resetState s).mCurrentCharucoCorners = s.mCurrentCharucoCorners ∧
    (resetState s).mCurrentCharucoIds = s.mCurrentCharucoIds :=
  ⟨rfl, rfl, rfl, rfl, rfl, rfl, rfl, rfl, rfl, rfl⟩

/-- Claim C9: starting from the initial state, the anchor history never
holds more than 30 entries when `processFrame` returns; and on a
detection frame that does not capture, the new history is the anchor
consed onto the first 29 old entries — insertion at the front, the oldest
entry the one evicted. -/
theorem history_capacity_and_order (bt : TemplateType) (w h : Nat)
    (fs : List Frame) (f : Frame) :
    (runFrames (initState bt w h) fs).mTemplateLocations.length ≤ 30 ∧
    (templateFound bt f = true →
      (processFrame f (runFrames (initState bt w h) fs)).mCapuredFrames =
        (runFrames (initState bt w h) fs).mCapuredFrames →
      (processFrame f (runFrames (initState bt w h) fs)).mTemplateLocations =
        anchorOf bt f :: (runFrames (initState bt w h) fs).mTemplateLocations.take 29) := by
  have hbt : (runFrames (initState bt w h) fs).boardType = bt :=
    (runFrames_config fs (initState bt w h)).1
  have hlen : (runFrames (initState bt w h) fs).mTemplateLocations.length ≤ 30 :=
    runFrames_locs_length fs (initState bt w h) (by simp [initState])
  refine ⟨hlen, fun hf hcap => ?_⟩
  have htrig : codeTrigger f (runFrames (initState bt w h) fs) = false := by
    by_cases hx : codeTrigger f (runFrames (initState bt w h) fs)
    · rw [processFrame_captured, if_pos hx] at hcap
      omega
    · simpa using hx
  rw [processFrame_locs, if_neg (by simp [htrig])]
  rw [postEvict_locs, postDetect_locs, hbt, hf, if_pos rfl]
  by_cases h30 : (runFrames (initState bt w h) fs).mTemplateLocations.length = 30
  · rw [if_pos (by simp [h30])]
    have hne : (runFrames (initState bt w h) fs).mTemplateLocations ≠ [] := by
      intro he
      rw [he] at h30
      simp at h30
    rw [List.dropLast_cons_of_ne_nil hne]
    congr 1
    rw [List.dropLast_eq_take, h30]
  · rw [if_neg (by simp only [List.length_cons]; omega)]
    congr 1
    rw [List.take_of_length_le (by omega)]

/-- Witness for C9 at a concrete input (empty run, then one detection). -/
theorem history_capacity_and_order_witness :
    (runFrames (initState .Chessboard 1 1) []).mTemplateLocations.length ≤ 30 ∧
    (processFrame steadyChessFrame
        (runFrames (initState .Chessboard 1 1) [])).mTemplateLocations =
      anchorOf .Chessboard steadyChessFrame ::
        (runFrames (initState .Chessboard 1 1) []).mTemplateLocations.take 29 :=
  ⟨(history_capacity_and_order .Chessboard 1 1 [] steadyChessFrame).1,
   (history_capacity_and_order .Chessboard 1 1 [] steadyChessFrame).2
     (by with_unfolding_all decide) (by with_unfolding_all decide)⟩

/-- Claim C10: for every family and every frame sequence from the initial
state, the dataset keeps its shape invariant: image/object sample lists of
equal length, charuco corner/id lists of equal length, every stored
object-point entry of size width·height (2·width·height for the double
grid), and only one of the two representations ever populated. -/
theorem dataset_invariants (bt : TemplateType) (w h : Nat) (fs : List Frame) :
    datasetInv bt w h (runFrames (initState bt w h) fs).mCalibdata :=
  datasetInv_run bt w h fs (initState bt w h) rfl rfl rfl (datasetInv_empty bt w h)

end Calib
